import Mathlib

/-!
Verification development for the biometric attendance system.

The definitions below are a shallow embedding of the decision pipeline of
the repository: the biometric matcher (`compareFaces`), the anti-spoofing
aggregator (`performAntiSpoofingChecks`), the geofence distance
(`calculateDistance`), and the check-in / check-out routes
(`checkIn`, `checkOut`) together with the database rows they read and write.

Modelling conventions:
* JavaScript numbers that only feed trigonometric / square-root arithmetic
  (feature vectors, coordinates, similarity scores) are modelled as real
  numbers; scores that only feed exact comparisons are rationals.
* Database tables are lists of row structures; a knex `where(...).first()`
  query is `List.filter` followed by `head?`, `whereBetween` is an
  inclusive interval test.
* Timestamps are natural numbers counting milliseconds; `setHours(0,0,0,0)`
  of the current instant is `startOfDay`, and `setHours(23,59,59,999)` is
  `startOfDay + msPerDay - 1` (JavaScript dates have millisecond precision).
* The mocked ML models (face detector, feature extractor, liveness model)
  produce random data in the source, so their outputs are inputs of the
  embedded pipeline; template decryption is an abstract parameter
  `decrypt`, applied exactly where the source calls `decryptFaceTemplate`.
* The rejection-reason string of the geofence branch is modelled by the
  pair of numbers it interpolates: `Math.round(distance)` and the allowed
  radius.
-/

namespace AttendanceApp

/-! ### Biometric matcher (faceRecognitionService.compareFaces) -/

/-- Feature vector: a list of real numbers (a 1-D tensor in the source). -/
abbrev Vec := List ℝ

/-- Result object of `compareFaces`. -/
structure CompareResult where
  isMatch : Bool
  similarity : ℝ
  threshold : ℝ

/-- Dot product `tf.sum(tf.mul(a, b))` (elementwise product, summed). -/
noncomputable def dotProduct (a b : Vec) : ℝ :=
  (List.zipWith (fun x y => x * y) a b).sum

/-- Euclidean norm `tf.sqrt(tf.sum(tf.square(a)))`. -/
noncomputable def vecNorm (a : Vec) : ℝ :=
  Real.sqrt ((a.map (fun x => x * x)).sum)

/-- Cosine similarity `dotProduct.div(norm1.mul(norm2))`. -/
noncomputable def cosineSimilarity (a b : Vec) : ℝ :=
  dotProduct a b / (vecNorm a * vecNorm b)

/-- Default value of the `threshold` parameter of `compareFaces`. -/
noncomputable def defaultThreshold : ℝ := 0.6

open Classical in
/-- Embedding of `compareFaces(features1, features2, threshold)`:
cosine similarity, and `isMatch = similarityValue > threshold`.
The source performs no degenerate-vector check; division is total
(JavaScript produces `NaN` on `0/0`, the real-number embedding produces
`0`), and a result object is always returned. -/
noncomputable def compareFaces (a b : Vec) (threshold : ℝ) : CompareResult :=
  let s := cosineSimilarity a b
  { isMatch := decide (s > threshold), similarity := s, threshold := threshold }

/-! ### Anti-spoofing aggregator (performAntiSpoofingChecks) -/

/-- Output of the liveness sub-model (`detectLiveness`). -/
structure LivenessResult where
  isLive : Bool
  confidence : ℚ

/-- Output of the texture-analysis sub-check. -/
structure TextureResult where
  textureScore : ℚ
  isRealTexture : Bool

/-- Output of the depth-analysis sub-check. -/
structure DepthResult where
  depthScore : ℚ
  hasDepth : Bool

/-- The three sub-model results consumed by the aggregator.  In the source
the sub-models are random-number placeholders, so their outputs are inputs
of the embedding. -/
structure SpoofInputs where
  liveness : LivenessResult
  texture : TextureResult
  depth : DepthResult

/-- Result object of `performAntiSpoofingChecks`. -/
structure AntiSpoofingResult where
  livenessDetection : LivenessResult
  textureAnalysis : TextureResult
  depthAnalysis : DepthResult
  overallScore : ℚ
  isLive : Bool
  passed : Bool

/-- Embedding of `performAntiSpoofingChecks`: the weighted overall score
`confidence*0.4 + textureScore*0.3 + depthScore*0.3`, and the AND-gate
`isLive = overallScore > 0.75 && liveness.isLive && texture.isRealTexture
&& depth.hasDepth`, with `passed = isLive`. -/
def performAntiSpoofingChecks (s : SpoofInputs) : AntiSpoofingResult :=
  let overall : ℚ :=
    s.liveness.confidence * 0.4 + s.texture.textureScore * 0.3 +
      s.depth.depthScore * 0.3
  let live : Bool :=
    decide (overall > 0.75) && s.liveness.isLive && s.texture.isRealTexture &&
      s.depth.hasDepth
  { livenessDetection := s.liveness
    textureAnalysis := s.texture
    depthAnalysis := s.depth
    overallScore := overall
    isLive := live
    passed := live }

/-! ### Face detection (detectFaces) -/

/-- A detected face; only the confidence is read by the pipeline logic
(the bounding box feeds image cropping, which is outside the embedding). -/
structure Face where
  confidence : ℚ

/-- Embedding of `detectFaces`: the raw detector output filtered by
`face.confidence > 0.7`. -/
def detectFaces (faces : List Face) : List Face :=
  faces.filter (fun f => decide (f.confidence > 0.7))

/-! ### Geofence distance (calculateDistance) -/

/-- JavaScript `Math.atan2(y, x)` over the reals. -/
noncomputable def atan2 (y x : ℝ) : ℝ :=
  if 0 < x then Real.arctan (y / x)
  else if x < 0 ∧ 0 ≤ y then Real.arctan (y / x) + Real.pi
  else if x < 0 ∧ y < 0 then Real.arctan (y / x) - Real.pi
  else if x = 0 ∧ 0 < y then Real.pi / 2
  else if x = 0 ∧ y < 0 then -(Real.pi / 2)
  else 0

/-- Embedding of the helper `calculateDistance(lat1, lon1, lat2, lon2)`:
haversine great-circle distance with mean Earth radius 6,371,000 m. -/
noncomputable def calculateDistance (lat1 lon1 lat2 lon2 : ℝ) : ℝ :=
  let r : ℝ := 6371000
  let phi1 := lat1 * Real.pi / 180
  let phi2 := lat2 * Real.pi / 180
  let dphi := (lat2 - lat1) * Real.pi / 180
  let dlam := (lon2 - lon1) * Real.pi / 180
  let a := Real.sin (dphi / 2) * Real.sin (dphi / 2) +
    Real.cos phi1 * Real.cos phi2 * Real.sin (dlam / 2) * Real.sin (dlam / 2)
  let c := 2 * atan2 (Real.sqrt a) (Real.sqrt (1 - a))
  r * c

/-! ### Data model (database rows read and written by the routes) -/

/-- Value of the `type` column of `attendance_records`. -/
inductive RecType where
  | check_in
  | check_out
deriving DecidableEq

/-- Value of the `status` column of `attendance_records`. -/
inductive RecStatus where
  | pending
  | approved
  | rejected
  | flagged
deriving DecidableEq

/-- Row of the `attendance_records` table, restricted to the columns the
pipeline reads or writes.  `rejection_reason` keeps the two numbers the
source interpolates into the message (`Math.round(distance)` and the
allowed radius). -/
structure AttendanceRecord where
  user_id : ℕ
  rtype : RecType
  timestamp : ℕ
  latitude : ℝ
  longitude : ℝ
  accuracy : Option ℝ
  confidence_score : ℝ
  liveness_passed : Bool
  status : RecStatus
  rejection_reason : Option (ℤ × ℝ)
  is_offline : Bool

/-- Row of the `face_templates` table; `α` is the type of the encrypted
`face_encoding` column. -/
structure FaceTemplate (α : Type) where
  user_id : ℕ
  face_encoding : α
  is_primary : Bool

/-- Row of the `work_schedules` table.  Coordinates are nullable columns;
the source guards on their JavaScript truthiness. -/
structure WorkSchedule where
  user_id : ℕ
  is_active : Bool
  latitude : Option ℝ
  longitude : Option ℝ
  location_radius : ℝ
  effective_from : Option ℕ
  effective_to : Option ℕ

/-- Database state visible to the attendance routes. -/
structure DBState (α : Type) where
  attendance_records : List AttendanceRecord
  face_templates : List (FaceTemplate α)
  work_schedules : List WorkSchedule

/-! ### Calendar-day window (setHours(0,0,0,0) .. setHours(23,59,59,999)) -/

/-- Milliseconds per calendar day. -/
def msPerDay : ℕ := 86400000

/-- Start of the calendar day containing millisecond instant `t`. -/
def startOfDay (t : ℕ) : ℕ := t / msPerDay * msPerDay

/-- Calendar-day index of millisecond instant `t`. -/
def dayOf (t : ℕ) : ℕ := t / msPerDay

/-- The `whereBetween` interval test on the timestamp column, where the
two bounds are computed from the instant `now`: inclusive on both ends,
with `todayEnd = todayStart + 86399999`. -/
def withinToday (now t : ℕ) : Bool :=
  decide (startOfDay now ≤ t) && decide (t ≤ startOfDay now + (msPerDay - 1))

/-- Duplicate-check query of the routes: does an `approved` record of type
`ty` for user `uid` exist in the calendar-day window of `now`?
This is the `.first()` query at the head of both routes, made into an
existence test. -/
def approvedToday (recs : List AttendanceRecord) (uid : ℕ) (ty : RecType)
    (now : ℕ) : Bool :=
  recs.any (fun r =>
    decide (r.user_id = uid) && decide (r.rtype = ty) &&
      withinToday now r.timestamp && decide (r.status = RecStatus.approved))

/-! ### Check-in / check-out pipeline (attendanceRoutes.js) -/

/-- A submission as the route sees it after authentication and multer:
the authenticated user, the validated body fields, and the outputs of the
mocked ML models on the uploaded image.  The `timestamp` field is the
client-embedded instant carried by an offline-queued submission; the
routes never read it (they call `new Date()` instead). -/
structure Submission where
  user_id : ℕ
  latitude : ℝ
  longitude : ℝ
  accuracy : Option ℝ
  timestamp : ℕ
  faces : List Face
  spoof : SpoofInputs
  features : Vec
  is_offline : Bool

/-- Outcome of a route invocation: either one of the HTTP 400 rejections
or the inserted attendance record. -/
inductive CheckOutcome where
  | alreadyCheckedIn
  | noCheckInYet
  | alreadyCheckedOut
  | noFaceDetected
  | livenessFailed (details : AntiSpoofingResult)
  | noTemplate
  | faceNotRecognized (similarity threshold : ℝ)
  | inserted (record : AttendanceRecord)

/-- Template query of both routes:
a filter on the `user_id` column and on `is_primary = true`.
Note the `is_primary` filter: only primary templates are loaded. -/
def loadTemplates {α : Type} (l : List (FaceTemplate α)) (uid : ℕ) :
    List (FaceTemplate α) :=
  l.filter (fun t => decide (t.user_id = uid) && t.is_primary)

/-- Attendance confidence threshold (`confidenceThreshold = 0.8`). -/
noncomputable def confidenceThreshold : ℝ := 0.8

open Classical in
/-- Best-template loop of both routes: fold over the loaded templates,
starting from `bestSimilarity = 0`, `bestMatch = null`, decrypting each
template and keeping the comparison whenever
`comparison.similarity > bestSimilarity` (strict improvement). -/
noncomputable def bestOf {α : Type} (decrypt : α → Vec) (features : Vec)
    (ts : List (FaceTemplate α)) : ℝ × Option CompareResult :=
  ts.foldl
    (fun acc t =>
      let c := compareFaces features (decrypt t.face_encoding) defaultThreshold
      if c.similarity > acc.1 then (c.similarity, some c) else acc)
    (0, none)

/-- Work-schedule query of the check-in route: `is_active` true,
`effective_from` null or `≤` now, `effective_to` null or `≥` now,
`.first()`. -/
def findWorkSchedule (l : List WorkSchedule) (uid : ℕ) (now : ℕ) :
    Option WorkSchedule :=
  (l.filter (fun w =>
    decide (w.user_id = uid) && w.is_active &&
      (match w.effective_from with
        | none => true
        | some f => decide (f ≤ now)) &&
      (match w.effective_to with
        | none => true
        | some e => decide (now ≤ e)))).head?

open Classical in
/-- Geofence step of the check-in route (lines computing `locationValid`
and `locationMessage`): if a schedule was found and both coordinates are
truthy (non-null and nonzero, JavaScript truthiness of numbers), compute
the haversine distance; the record is flagged exactly when
`distance > location_radius`, and the rejection reason records
`Math.round(distance)` and the allowed radius.  In all other cases the
location is valid. -/
noncomputable def geofence (subLat subLon : ℝ) (ws : Option WorkSchedule) :
    RecStatus × Option (ℤ × ℝ) :=
  match ws with
  | none => (RecStatus.approved, none)
  | some w =>
    match w.latitude, w.longitude with
    | some la, some lo =>
      if la ≠ 0 ∧ lo ≠ 0 then
        let d := calculateDistance subLat subLon la lo
        if d > w.location_radius then
          (RecStatus.flagged, some (round d, w.location_radius))
        else (RecStatus.approved, none)
      else (RecStatus.approved, none)
    | _, _ => (RecStatus.approved, none)

open Classical in
/-- Embedding of `POST /api/attendance/check-in` (the logic after body
validation and file-presence checks): duplicate check against the server
clock `now`, face detection, anti-spoofing, primary-template matching
against threshold 0.8, geofence, and insertion of the record with
`timestamp = now` and `is_offline = false`.  Every rejection leaves the
state unchanged. -/
noncomputable def checkIn {α : Type} (decrypt : α → Vec) (st : DBState α)
    (sub : Submission) (now : ℕ) : CheckOutcome × DBState α :=
  if approvedToday st.attendance_records sub.user_id RecType.check_in now then
    (CheckOutcome.alreadyCheckedIn, st)
  else
    let faces := detectFaces sub.faces
    if faces.length = 0 then (CheckOutcome.noFaceDetected, st)
    else
      let asr := performAntiSpoofingChecks sub.spoof
      if asr.passed = false then (CheckOutcome.livenessFailed asr, st)
      else
        let faceTemplates := loadTemplates st.face_templates sub.user_id
        if faceTemplates.length = 0 then (CheckOutcome.noTemplate, st)
        else
          let best := bestOf decrypt sub.features faceTemplates
          if best.2.isNone = true ∨ best.1 < confidenceThreshold then
            (CheckOutcome.faceNotRecognized best.1 confidenceThreshold, st)
          else
            let ws := findWorkSchedule st.work_schedules sub.user_id now
            let geo := geofence sub.latitude sub.longitude ws
            let record : AttendanceRecord :=
              { user_id := sub.user_id
                rtype := RecType.check_in
                timestamp := now
                latitude := sub.latitude
                longitude := sub.longitude
                accuracy := sub.accuracy
                confidence_score := best.1
                liveness_passed := asr.passed
                status := geo.1
                rejection_reason := geo.2
                is_offline := false }
            (CheckOutcome.inserted record,
              { st with
                  attendance_records := st.attendance_records ++ [record] })

open Classical in
/-- Embedding of `POST /api/attendance/check-out`: requires an approved
same-day check-in and no approved same-day check-out, then face detection,
anti-spoofing and primary-template matching as in check-in (the route has
no empty-template rejection: an empty template list leaves
`bestMatch = null` and falls into `faceNotRecognized`).  The inserted
record always has `status = approved`; no work-schedule lookup and no
geofence computation occur on this path. -/
noncomputable def checkOut {α : Type} (decrypt : α → Vec) (st : DBState α)
    (sub : Submission) (now : ℕ) : CheckOutcome × DBState α :=
  if approvedToday st.attendance_records sub.user_id RecType.check_in now
      = false then
    (CheckOutcome.noCheckInYet, st)
  else if approvedToday st.attendance_records sub.user_id RecType.check_out
      now then
    (CheckOutcome.alreadyCheckedOut, st)
  else
    let faces := detectFaces sub.faces
    if faces.length = 0 then (CheckOutcome.noFaceDetected, st)
    else
      let asr := performAntiSpoofingChecks sub.spoof
      if asr.passed = false then (CheckOutcome.livenessFailed asr, st)
      else
        let faceTemplates := loadTemplates st.face_templates sub.user_id
        let best := bestOf decrypt sub.features faceTemplates
        if best.2.isNone = true ∨ best.1 < confidenceThreshold then
          (CheckOutcome.faceNotRecognized best.1 confidenceThreshold, st)
        else
          let record : AttendanceRecord :=
            { user_id := sub.user_id
              rtype := RecType.check_out
              timestamp := now
              latitude := sub.latitude
              longitude := sub.longitude
              accuracy := sub.accuracy
              confidence_score := best.1
              liveness_passed := asr.passed
              status := RecStatus.approved
              rejection_reason := none
              is_offline := false }
          (CheckOutcome.inserted record,
            { st with
                attendance_records := st.attendance_records ++ [record] })

/-! ### Specification-side definitions (for refinement comparisons) -/

open Classical in
/-- Specification-side definition, following the words of the spec for the
match step: the maximum similarity computed against every stored template
of the user, all of them, each decrypted before comparison.  This is not
the computation of the source; it is compared against it. -/
noncomputable def specAllTemplatesBestSimilarity {α : Type} (decrypt : α → Vec)
    (features : Vec) (l : List (FaceTemplate α)) (uid : ℕ) : ℝ :=
  ((l.filter (fun t => decide (t.user_id = uid))).map
    (fun t =>
      (compareFaces features (decrypt t.face_encoding) defaultThreshold).similarity)).foldl
    max 0

/-- Similarity value a route outcome reports or records: the similarity of
a `faceNotRecognized` rejection, or the `confidence_score` of an inserted
record. -/
def decisionSimilarity : CheckOutcome → Option ℝ
  | CheckOutcome.faceNotRecognized s _ => some s
  | CheckOutcome.inserted r => some r.confidence_score
  | _ => none

/-! ### Day-uniqueness invariant -/

/-- Number of `approved` records of type `ty` for user `uid` on calendar
day `d`. -/
def approvedCount (recs : List AttendanceRecord) (uid : ℕ) (ty : RecType)
    (d : ℕ) : ℕ :=
  (recs.filter (fun r =>
    decide (r.user_id = uid) && decide (r.rtype = ty) &&
      decide (r.status = RecStatus.approved) &&
      decide (dayOf r.timestamp = d))).length

/-- Invariant of the spec: for every user and calendar day, at most one
approved check-in and at most one approved check-out. -/
def DayUnique (recs : List AttendanceRecord) : Prop :=
  ∀ uid ty d, approvedCount recs uid ty d ≤ 1

/-! ### Concrete fixtures for witnesses and counterexamples -/

/-- Identity decryption: templates stored in the clear, used to
instantiate the abstract `decrypt` parameter on concrete runs. -/
def idDecrypt : Vec → Vec := fun v => v

/-- Sub-model outputs that pass every anti-spoofing check. -/
def goodSpoof : SpoofInputs :=
  { liveness := { isLive := true, confidence := 0.9 }
    texture := { textureScore := 0.9, isRealTexture := true }
    depth := { depthScore := 0.9, hasDepth := true } }

/-- A detected face above the 0.7 confidence filter. -/
def goodFace : Face := { confidence := 0.95 }

/-- Primary template for user 1 whose decrypted vector is `[-1]`. -/
def tmplPrimNeg : FaceTemplate Vec :=
  { user_id := 1, face_encoding := [-1], is_primary := true }

/-- Non-primary template for user 1 whose decrypted vector is `[1]`. -/
def tmplSecPos : FaceTemplate Vec :=
  { user_id := 1, face_encoding := [1], is_primary := false }

/-- Primary template for user 1 whose decrypted vector is `[1]`. -/
def tmplPrimPos : FaceTemplate Vec :=
  { user_id := 1, face_encoding := [1], is_primary := true }

/-- Store with both templates of user 1 enrolled: the primary one matches
badly, the non-primary one matches perfectly. -/
def stTwoTemplates : DBState Vec :=
  { attendance_records := [], face_templates := [tmplPrimNeg, tmplSecPos]
    work_schedules := [] }

/-- Store with a single well-matching primary template and no schedule. -/
def stOneTemplate : DBState Vec :=
  { attendance_records := [], face_templates := [tmplPrimPos]
    work_schedules := [] }

/-- Effective work schedule for user 1: site (1, 1), radius 100 m. -/
def wsFix : WorkSchedule :=
  { user_id := 1, is_active := true, latitude := some 1, longitude := some 1
    location_radius := 100, effective_from := none, effective_to := none }

/-- Store with a well-matching primary template and a configured site. -/
def stWithSite : DBState Vec :=
  { attendance_records := [], face_templates := [tmplPrimPos]
    work_schedules := [wsFix] }

/-- Approved check-in of user 1 at millisecond 0 (calendar day 0). -/
def recPrior : AttendanceRecord :=
  { user_id := 1, rtype := RecType.check_in, timestamp := 0, latitude := 0
    longitude := 0, accuracy := none, confidence_score := 1
    liveness_passed := true, status := RecStatus.approved
    rejection_reason := none, is_offline := false }

/-- Store holding the day-0 approved check-in of user 1 and their
well-matching primary template. -/
def stCheckedIn : DBState Vec :=
  { attendance_records := [recPrior], face_templates := [tmplPrimPos]
    work_schedules := [] }

/-- Submission of user 1 at coordinates (1, 1) whose extracted features
`[1]` match the template `[1]` perfectly. -/
def subGood : Submission :=
  { user_id := 1, latitude := 1, longitude := 1, accuracy := none
    timestamp := 0, faces := [goodFace], spoof := goodSpoof, features := [1]
    is_offline := false }

/-- Offline-queued submission of user 1 with embedded timestamp 50 (day 0)
and no detectable face. -/
def subOffline : Submission :=
  { user_id := 1, latitude := 0, longitude := 0, accuracy := none
    timestamp := 50, faces := [], spoof := goodSpoof, features := [1]
    is_offline := true }

/-- Record inserted by the concrete check-out run of the C9 witness. -/
def recCheckout : AttendanceRecord :=
  { user_id := 1, rtype := RecType.check_out, timestamp := 10, latitude := 1
    longitude := 1, accuracy := none, confidence_score := 1
    liveness_passed := true, status := RecStatus.approved
    rejection_reason := none, is_offline := false }

open Classical in
/-- Record the check-in route inserts once every biometric check has
passed and an effective schedule with truthy site coordinates `(la, lo)`
was found: status and rejection reason are decided by the haversine
distance against the allowed radius. -/
noncomputable def c4record {α : Type} (decrypt : α → Vec) (st : DBState α)
    (sub : Submission) (now : ℕ) (w : WorkSchedule) (la lo : ℝ) :
    AttendanceRecord :=
  { user_id := sub.user_id
    rtype := RecType.check_in
    timestamp := now
    latitude := sub.latitude
    longitude := sub.longitude
    accuracy := sub.accuracy
    confidence_score :=
      (bestOf decrypt sub.features (loadTemplates st.face_templates sub.user_id)).1
    liveness_passed := true
    status :=
      if calculateDistance sub.latitude sub.longitude la lo > w.location_radius
      then RecStatus.flagged else RecStatus.approved
    rejection_reason :=
      if calculateDistance sub.latitude sub.longitude la lo > w.location_radius
      then some (round (calculateDistance sub.latitude sub.longitude la lo),
        w.location_radius)
      else none
    is_offline := false }

/-! ### Helper lemmas -/

theorem withinToday_eq_true_iff (now t : ℕ) :
    withinToday now t = true ↔ dayOf t = dayOf now := by
  simp only [withinToday, startOfDay, dayOf, msPerDay, Bool.and_eq_true,
    decide_eq_true_eq]
  omega

theorem approvedToday_eq_true_iff (recs : List AttendanceRecord) (uid : ℕ)
    (ty : RecType) (now : ℕ) :
    approvedToday recs uid ty now = true ↔
      ∃ r ∈ recs, r.user_id = uid ∧ r.rtype = ty ∧
        dayOf r.timestamp = dayOf now ∧ r.status = RecStatus.approved := by
  simp only [approvedToday, List.any_eq_true, Bool.and_eq_true,
    decide_eq_true_eq, withinToday_eq_true_iff]
  tauto

theorem approvedToday_eq_false_iff (recs : List AttendanceRecord) (uid : ℕ)
    (ty : RecType) (now : ℕ) :
    approvedToday recs uid ty now = false ↔
      ∀ r ∈ recs, r.user_id = uid → r.rtype = ty →
        r.status = RecStatus.approved → dayOf r.timestamp ≠ dayOf now := by
  rw [← Bool.not_eq_true, approvedToday_eq_true_iff]
  push_neg
  constructor
  · intro h r hr h1 h2 h3 h4
    exact h r hr h1 h2 h4 h3
  · intro h r hr h1 h2 h3 h4
    exact h r hr h1 h2 h4 h3

theorem approvedCount_append (l1 l2 : List AttendanceRecord) (uid : ℕ)
    (ty : RecType) (d : ℕ) :
    approvedCount (l1 ++ l2) uid ty d =
      approvedCount l1 uid ty d + approvedCount l2 uid ty d := by
  simp [approvedCount, List.filter_append]

theorem approvedCount_singleton (r : AttendanceRecord) (uid : ℕ)
    (ty : RecType) (d : ℕ) :
    approvedCount [r] uid ty d =
      if r.user_id = uid ∧ r.rtype = ty ∧ r.status = RecStatus.approved ∧
          dayOf r.timestamp = d
      then 1 else 0 := by
  by_cases h : r.user_id = uid ∧ r.rtype = ty ∧
      r.status = RecStatus.approved ∧ dayOf r.timestamp = d
  · rw [if_pos h]
    obtain ⟨h1, h2, h3, h4⟩ := h
    simp [approvedCount, List.filter_singleton, h1, h2, h3, h4]
  · rw [if_neg h]
    rw [approvedCount, List.length_eq_zero, List.filter_eq_nil_iff]
    intro a ha
    rw [List.mem_singleton] at ha
    subst ha
    simp only [Bool.and_eq_true, decide_eq_true_eq]
    rintro ⟨⟨⟨h1, h2⟩, h3⟩, h4⟩
    exact h ⟨h1, h2, h3, h4⟩

theorem approvedCount_eq_zero_of_not_today (recs : List AttendanceRecord)
    (uid : ℕ) (ty : RecType) (now : ℕ)
    (h : approvedToday recs uid ty now = false) :
    approvedCount recs uid ty (dayOf now) = 0 := by
  rw [approvedCount, List.length_eq_zero, List.filter_eq_nil_iff]
  rw [approvedToday_eq_false_iff] at h
  intro r hr
  simp only [Bool.and_eq_true, decide_eq_true_eq]
  rintro ⟨⟨⟨h1, h2⟩, h3⟩, h4⟩
  exact h r hr h1 h2 h3 h4

theorem compareFaces_similarity (a b : Vec) (t : ℝ) :
    (compareFaces a b t).similarity = cosineSimilarity a b := rfl

theorem dotProduct_comm (a b : Vec) : dotProduct a b = dotProduct b a := by
  unfold dotProduct
  rw [List.zipWith_comm_of_comm (fun x y => x * y) mul_comm]

theorem mapsq_sum_nonneg (a : Vec) : 0 ≤ (a.map fun x => x * x).sum := by
  induction a with
  | nil => simp
  | cons x xs ih =>
    simp only [List.map_cons, List.sum_cons]
    have := mul_self_nonneg x
    linarith

theorem mapsq_sum_eq_zero_of_vecNorm (a : Vec) (h : vecNorm a = 0) :
    (a.map fun x => x * x).sum = 0 := by
  have h1 := mapsq_sum_nonneg a
  have h2 : (a.map fun x => x * x).sum ≤ 0 := Real.sqrt_eq_zero'.mp h
  linarith

theorem dotProduct_eq_zero_left (a b : Vec)
    (h : (a.map fun x => x * x).sum = 0) : dotProduct a b = 0 := by
  induction a generalizing b with
  | nil => simp [dotProduct]
  | cons x xs ih =>
    cases b with
    | nil => simp [dotProduct]
    | cons y ys =>
      simp only [List.map_cons, List.sum_cons] at h
      have h1 : 0 ≤ (xs.map fun x => x * x).sum := mapsq_sum_nonneg xs
      have h2 : 0 ≤ x * x := mul_self_nonneg x
      have hx : x = 0 := by nlinarith
      have h3 : (xs.map fun x => x * x).sum = 0 := by nlinarith
      have htail := ih ys h3
      unfold dotProduct at htail ⊢
      simp only [List.zipWith_cons_cons, List.sum_cons]
      rw [hx, htail]
      ring

theorem cosineSimilarity_one_one : cosineSimilarity [(1 : ℝ)] [1] = 1 := by
  unfold cosineSimilarity dotProduct vecNorm
  norm_num

theorem cosineSimilarity_one_negone :
    cosineSimilarity [(1 : ℝ)] [-1] = -1 := by
  unfold cosineSimilarity dotProduct vecNorm
  norm_num

theorem bestOf_tmplPrimPos :
    bestOf idDecrypt [1] [tmplPrimPos] =
      (1, some (compareFaces [1] [1] defaultThreshold)) := by
  have h1 : (compareFaces [(1 : ℝ)] [1] defaultThreshold).similarity = 1 := by
    rw [compareFaces_similarity, cosineSimilarity_one_one]
  simp only [bestOf, List.foldl, idDecrypt, tmplPrimPos, h1]
  rw [if_pos (by norm_num : (1 : ℝ) > 0)]

theorem bestOf_tmplPrimNeg :
    bestOf idDecrypt [1] [tmplPrimNeg] = (0, none) := by
  have h1 : (compareFaces [(1 : ℝ)] [-1] defaultThreshold).similarity = -1 := by
    rw [compareFaces_similarity, cosineSimilarity_one_negone]
  simp only [bestOf, List.foldl, idDecrypt, tmplPrimNeg, h1]
  rw [if_neg (by norm_num : ¬ (-1 : ℝ) > 0)]

theorem atan2_zero_one : atan2 0 1 = 0 := by
  unfold atan2
  rw [if_pos (by norm_num : (0 : ℝ) < 1)]
  simp [Real.arctan_zero]

theorem calculateDistance_self (la lo : ℝ) :
    calculateDistance la lo la lo = 0 := by
  unfold calculateDistance
  simp only [sub_self, zero_mul, zero_div, Real.sin_zero, mul_zero, zero_add,
    add_zero, Real.sqrt_zero, sub_zero, Real.sqrt_one]
  rw [atan2_zero_one]
  ring

theorem DayUnique_insert (recs : List AttendanceRecord) (r : AttendanceRecord)
    (hInv : DayUnique recs)
    (hguard : approvedCount recs r.user_id r.rtype (dayOf r.timestamp) = 0) :
    DayUnique (recs ++ [r]) := by
  intro uid ty d
  rw [approvedCount_append, approvedCount_singleton]
  by_cases hp : r.user_id = uid ∧ r.rtype = ty ∧
      r.status = RecStatus.approved ∧ dayOf r.timestamp = d
  · rw [if_pos hp]
    obtain ⟨e1, e2, _, e4⟩ := hp
    rw [e1, e2, e4] at hguard
    omega
  · rw [if_neg hp]
    have := hInv uid ty d
    omega

theorem checkIn_state_shape {α : Type} (decrypt : α → Vec) (st : DBState α)
    (sub : Submission) (now : ℕ) :
    (checkIn decrypt st sub now).2 = st ∨
      (approvedToday st.attendance_records sub.user_id RecType.check_in now
          = false ∧
        ∃ r : AttendanceRecord,
          r.user_id = sub.user_id ∧ r.rtype = RecType.check_in ∧
            r.timestamp = now ∧
            (checkIn decrypt st sub now).2.attendance_records =
              st.attendance_records ++ [r]) := by
  simp only [checkIn]
  split_ifs with h1 h2 h3 h4 h5
  · left; rfl
  · left; rfl
  · left; rfl
  · left; rfl
  · left; rfl
  · right
    refine ⟨Bool.not_eq_true _ ▸ (by simpa using h1), ?_⟩
    exact ⟨_, rfl, rfl, rfl, rfl⟩

theorem checkOut_state_shape {α : Type} (decrypt : α → Vec) (st : DBState α)
    (sub : Submission) (now : ℕ) :
    (checkOut decrypt st sub now).2 = st ∨
      (approvedToday st.attendance_records sub.user_id RecType.check_out now
          = false ∧
        ∃ r : AttendanceRecord,
          r.user_id = sub.user_id ∧ r.rtype = RecType.check_out ∧
            r.timestamp = now ∧ r.status = RecStatus.approved ∧
            (checkOut decrypt st sub now).2.attendance_records =
              st.attendance_records ++ [r]) := by
  simp only [checkOut]
  split_ifs with h1 h2 h3 h4 h5
  · left; rfl
  · left; rfl
  · left; rfl
  · left; rfl
  · left; rfl
  · right
    refine ⟨by simpa using h2, ?_⟩
    exact ⟨_, rfl, rfl, rfl, rfl, rfl⟩

/-- C3: the anti-spoofing aggregator computes
`overallScore = 0.4*livenessScore + 0.3*textureScore + 0.3*depthScore`,
sets `passed = isLive`, and `isLive` is true exactly when all four
conditions hold (`overallScore > 0.75` and the three sub-check booleans);
in particular, with all three scores at 0.95 but the depth boolean false,
`isLive` is false. -/
theorem C3_antispoof_and_gate (s : SpoofInputs) :
    (performAntiSpoofingChecks s).overallScore =
        0.4 * s.liveness.confidence + 0.3 * s.texture.textureScore +
          0.3 * s.depth.depthScore ∧
    (performAntiSpoofingChecks s).passed = (performAntiSpoofingChecks s).isLive ∧
    ((performAntiSpoofingChecks s).isLive = true ↔
      (performAntiSpoofingChecks s).overallScore > 0.75 ∧
        s.liveness.isLive = true ∧ s.texture.isRealTexture = true ∧
        s.depth.hasDepth = true) ∧
    (performAntiSpoofingChecks
        { liveness := { isLive := true, confidence := 0.95 }
          texture := { textureScore := 0.95, isRealTexture := true }
          depth := { depthScore := 0.95, hasDepth := false } }).isLive
      = false := by
  refine ⟨?_, rfl, ?_, by simp [performAntiSpoofingChecks]⟩
  · simp only [performAntiSpoofingChecks]
    ring
  · simp only [performAntiSpoofingChecks, Bool.and_eq_true, decide_eq_true_eq,
      and_assoc]

/-- C10: cosine similarity as computed by `compareFaces` is symmetric in
its two vector arguments. -/
theorem C10_similarity_symmetric (a b : Vec) (t : ℝ) :
    (compareFaces a b t).similarity = (compareFaces b a t).similarity := by
  rw [compareFaces_similarity, compareFaces_similarity]
  unfold cosineSimilarity
  rw [dotProduct_comm, mul_comm (vecNorm a) (vecNorm b)]

/-- C6 counterexample: on the zero-norm input `[0]` the embedded source
`compareFaces` signals no error at all — it returns a result object whose
similarity is the numeric value `0` (the total-division reading of the
JavaScript `0/0`), with `isMatch = false`; the claimed
`DegenerateVectorError` does not exist in the code. -/
theorem C6_counterexample :
    vecNorm [(0 : ℝ)] = 0 ∧
    (compareFaces [(0 : ℝ)] [1] defaultThreshold).similarity = 0 ∧
    (compareFaces [(0 : ℝ)] [1] defaultThreshold).isMatch = false := by
  refine ⟨by simp [vecNorm], ?_, ?_⟩
  · rw [compareFaces_similarity]
    unfold cosineSimilarity dotProduct
    norm_num
  · show decide (cosineSimilarity [(0 : ℝ)] [1] > defaultThreshold) = false
    have h : cosineSimilarity [(0 : ℝ)] [1] = 0 := by
      unfold cosineSimilarity dotProduct
      norm_num
    rw [h]
    exact decide_eq_false (by norm_num [defaultThreshold])

/-- C6 amended: `compareFaces` performs no zero-norm check and always
returns a result object; whenever either input has zero norm, the
returned similarity is the numeric value `0` (JavaScript `NaN`, total
division in the embedding) and, for any nonnegative threshold,
`isMatch` is `false` — no error is signalled. -/
theorem C6_zero_norm_returns_zero (a b : Vec) (t : ℝ)
    (h : vecNorm a = 0 ∨ vecNorm b = 0) :
    (compareFaces a b t).similarity = 0 ∧
      (0 ≤ t → (compareFaces a b t).isMatch = false) := by
  have hdot : dotProduct a b = 0 := by
    cases h with
    | inl h =>
      exact dotProduct_eq_zero_left a b (mapsq_sum_eq_zero_of_vecNorm a h)
    | inr h =>
      rw [dotProduct_comm]
      exact dotProduct_eq_zero_left b a (mapsq_sum_eq_zero_of_vecNorm b h)
  have hsim : cosineSimilarity a b = 0 := by
    unfold cosineSimilarity
    rw [hdot, zero_div]
  constructor
  · rw [compareFaces_similarity, hsim]
  · intro ht
    show decide (cosineSimilarity a b > t) = false
    rw [hsim]
    exact decide_eq_false (not_lt.mpr ht)

/-- C6 witness: the amended statement evaluated at the concrete zero-norm
input `[0]` against `[1]` with threshold `1`. -/
theorem C6_zero_norm_witness :
    (vecNorm [(0 : ℝ)] = 0 ∨ vecNorm [(1 : ℝ)] = 0) ∧
      (compareFaces [(0 : ℝ)] [1] 1).similarity = 0 ∧
      (compareFaces [(0 : ℝ)] [1] 1).isMatch = false := by
  have h : vecNorm [(0 : ℝ)] = 0 := by simp [vecNorm]
  have main := C6_zero_norm_returns_zero [(0 : ℝ)] [1] 1 (Or.inl h)
  exact ⟨Or.inl h, main.1, main.2 (by norm_num)⟩

theorem detectFaces_subGood : detectFaces subGood.faces = [goodFace] := by
  norm_num [detectFaces, subGood, goodFace, List.filter]

theorem subGood_spoof_passed :
    (performAntiSpoofingChecks subGood.spoof).passed = true := by
  norm_num [performAntiSpoofingChecks, subGood, goodSpoof]

theorem loadTemplates_stTwo :
    loadTemplates stTwoTemplates.face_templates subGood.user_id
      = [tmplPrimNeg] := rfl

theorem loadTemplates_stOne :
    loadTemplates stOneTemplate.face_templates subGood.user_id
      = [tmplPrimPos] := rfl

theorem bestOf_stTwo :
    bestOf idDecrypt subGood.features
      (loadTemplates stTwoTemplates.face_templates subGood.user_id)
      = (0, none) := by
  rw [loadTemplates_stTwo]
  show bestOf idDecrypt [1] [tmplPrimNeg] = (0, none)
  exact bestOf_tmplPrimNeg

theorem bestOf_stOne :
    bestOf idDecrypt subGood.features
      (loadTemplates stOneTemplate.face_templates subGood.user_id)
      = (1, some (compareFaces [1] [1] defaultThreshold)) := by
  rw [loadTemplates_stOne]
  show bestOf idDecrypt [1] [tmplPrimPos] = _
  exact bestOf_tmplPrimPos

/-- C1 counterexample: user 1 has two stored templates (`[-1]` primary,
`[1]` non-primary) and submits features `[1]`.  The decision of the route uses
similarity `0` (the primary-only loop never improves on the initial
accumulator), while the maximum similarity over every stored template of
the user is `1`: the decision similarity is not the all-templates maximum,
because the query filters on `is_primary = true`. -/
theorem C1_counterexample :
    (checkIn idDecrypt stTwoTemplates subGood 0).1 =
      CheckOutcome.faceNotRecognized 0 confidenceThreshold ∧
    specAllTemplatesBestSimilarity idDecrypt subGood.features
      stTwoTemplates.face_templates subGood.user_id = 1 ∧
    (0 : ℝ) ≠ 1 := by
  refine ⟨?_, ?_, by norm_num⟩
  · simp only [checkIn]
    rw [if_neg (by rw [show approvedToday stTwoTemplates.attendance_records
      subGood.user_id RecType.check_in 0 = false from rfl]; simp)]
    rw [if_neg (by rw [detectFaces_subGood]; norm_num)]
    rw [if_neg (by rw [subGood_spoof_passed]; norm_num)]
    rw [if_neg (by rw [loadTemplates_stTwo]; norm_num)]
    rw [if_pos (Or.inl (by rw [bestOf_stTwo]; rfl))]
    rw [bestOf_stTwo]
  · have hfilter : stTwoTemplates.face_templates.filter
        (fun t => decide (t.user_id = subGood.user_id))
        = [tmplPrimNeg, tmplSecPos] := rfl
    unfold specAllTemplatesBestSimilarity
    rw [hfilter]
    simp only [List.map_cons, List.map_nil, List.foldl_cons, List.foldl_nil,
      compareFaces_similarity]
    have h1 : cosineSimilarity subGood.features
        (idDecrypt tmplPrimNeg.face_encoding) = -1 :=
      cosineSimilarity_one_negone
    have h2 : cosineSimilarity subGood.features
        (idDecrypt tmplSecPos.face_encoding) = 1 :=
      cosineSimilarity_one_one
    rw [h1, h2]
    rw [max_eq_left (by norm_num : (-1 : ℝ) ≤ 0)]
    rw [max_eq_right (by norm_num : (0 : ℝ) ≤ 1)]

/-- C1 amended: whenever a check-in reaches the match step (no duplicate,
a face detected, anti-spoofing passed, a nonempty primary-template list),
the similarity the decision uses — reported by `faceNotRecognized` or
recorded as `confidence_score` — is the best-of fold over the templates
of the user marked primary only (query `is_primary = true`), each
decrypted before comparison, starting from accumulator 0. -/
theorem C1_match_uses_primary_templates {α : Type} (decrypt : α → Vec)
    (st : DBState α) (sub : Submission) (now : ℕ)
    (hdup : approvedToday st.attendance_records sub.user_id RecType.check_in
      now = false)
    (hfaces : (detectFaces sub.faces).length ≠ 0)
    (hlive : (performAntiSpoofingChecks sub.spoof).passed = true)
    (htempl : (loadTemplates st.face_templates sub.user_id).length ≠ 0) :
    decisionSimilarity (checkIn decrypt st sub now).1 =
      some (bestOf decrypt sub.features
        (loadTemplates st.face_templates sub.user_id)).1 := by
  simp only [checkIn]
  rw [if_neg (by simp [hdup])]
  rw [if_neg hfaces]
  rw [if_neg (by simp [hlive])]
  rw [if_neg htempl]
  by_cases hb : (bestOf decrypt sub.features
      (loadTemplates st.face_templates sub.user_id)).2.isNone = true ∨
      (bestOf decrypt sub.features
        (loadTemplates st.face_templates sub.user_id)).1 < confidenceThreshold
  · rw [if_pos hb]; rfl
  · rw [if_neg hb]; rfl

/-- C1 witness: the amended statement on a concrete run with one primary
template `[1]` and features `[1]`: the decision similarity is `1`, the
fold over the primary templates. -/
theorem C1_match_witness :
    decisionSimilarity (checkIn idDecrypt stOneTemplate subGood 0).1
      = some 1 := by
  have h := C1_match_uses_primary_templates idDecrypt stOneTemplate subGood 0
    rfl
    (by rw [detectFaces_subGood]; norm_num)
    subGood_spoof_passed
    (by rw [loadTemplates_stOne]; norm_num)
  rw [h, bestOf_stOne]

/-- C5: whenever a check-in reaches the match step and the best
similarity of the template loop is strictly below the 0.8 attendance
threshold, the route rejects with `FaceNotRecognized`, reporting that
similarity and the 0.8 threshold, and leaves the store unchanged; the
0.8 attendance threshold is distinct from and strictly higher than the
0.6 default comparison threshold of `compareFaces`. -/
theorem C5_below_threshold_rejected {α : Type} (decrypt : α → Vec)
    (st : DBState α) (sub : Submission) (now : ℕ)
    (hdup : approvedToday st.attendance_records sub.user_id RecType.check_in
      now = false)
    (hfaces : (detectFaces sub.faces).length ≠ 0)
    (hlive : (performAntiSpoofingChecks sub.spoof).passed = true)
    (htempl : (loadTemplates st.face_templates sub.user_id).length ≠ 0)
    (hsim : (bestOf decrypt sub.features
      (loadTemplates st.face_templates sub.user_id)).1 < confidenceThreshold) :
    checkIn decrypt st sub now =
      (CheckOutcome.faceNotRecognized
        (bestOf decrypt sub.features
          (loadTemplates st.face_templates sub.user_id)).1
        confidenceThreshold, st) ∧
    confidenceThreshold = 0.8 ∧ defaultThreshold = 0.6 ∧
    defaultThreshold < confidenceThreshold := by
  refine ⟨?_, rfl, rfl, by norm_num [defaultThreshold, confidenceThreshold]⟩
  simp only [checkIn]
  rw [if_neg (by simp [hdup])]
  rw [if_neg hfaces]
  rw [if_neg (by simp [hlive])]
  rw [if_neg htempl]
  rw [if_pos (Or.inr hsim)]

/-- C5 witness: the concrete run where the only primary template gives
similarity `-1`, so the loop reports best similarity `0 < 0.8` and the
submission is rejected with no record persisted. -/
theorem C5_witness :
    checkIn idDecrypt stTwoTemplates subGood 0 =
      (CheckOutcome.faceNotRecognized 0 confidenceThreshold,
        stTwoTemplates) ∧
    defaultThreshold < confidenceThreshold := by
  have h := C5_below_threshold_rejected idDecrypt stTwoTemplates subGood 0
    rfl
    (by rw [detectFaces_subGood]; norm_num)
    subGood_spoof_passed
    (by rw [loadTemplates_stTwo]; norm_num)
    (by rw [bestOf_stTwo]; norm_num [confidenceThreshold])
  refine ⟨?_, h.2.2.2⟩
  rw [h.1, bestOf_stTwo]

/-- C2: the pipeline preserves the at-most-one-approved-record-per-day
invariant: a check-in is rejected (state unchanged) when an approved
check-in exists that calendar day, a check-out is rejected when no
approved check-in exists that day or when an approved check-out already
exists that day, and both routes map a day-unique store to a day-unique
store. -/
theorem C2_day_uniqueness {α : Type} (decrypt : α → Vec) (st : DBState α)
    (sub : Submission) (now : ℕ)
    (hInv : DayUnique st.attendance_records) :
    (approvedToday st.attendance_records sub.user_id RecType.check_in now
        = true →
      checkIn decrypt st sub now = (CheckOutcome.alreadyCheckedIn, st)) ∧
    (approvedToday st.attendance_records sub.user_id RecType.check_in now
        = false →
      checkOut decrypt st sub now = (CheckOutcome.noCheckInYet, st)) ∧
    (approvedToday st.attendance_records sub.user_id RecType.check_in now
        = true →
      approvedToday st.attendance_records sub.user_id RecType.check_out now
        = true →
      checkOut decrypt st sub now = (CheckOutcome.alreadyCheckedOut, st)) ∧
    DayUnique (checkIn decrypt st sub now).2.attendance_records ∧
    DayUnique (checkOut decrypt st sub now).2.attendance_records := by
  refine ⟨?_, ?_, ?_, ?_, ?_⟩
  · intro h
    simp only [checkIn]
    rw [if_pos h]
  · intro h
    simp only [checkOut]
    rw [if_pos h]
  · intro h1 h2
    simp only [checkOut]
    rw [if_neg (by simp [h1])]
    rw [if_pos h2]
  · rcases checkIn_state_shape decrypt st sub now with h
      | ⟨hfalse, r, hu, hty, hts, hlist⟩
    · rw [h]
      exact hInv
    · rw [hlist]
      apply DayUnique_insert _ _ hInv
      rw [hu, hty, hts]
      exact approvedCount_eq_zero_of_not_today _ _ _ _ hfalse
  · rcases checkOut_state_shape decrypt st sub now with h
      | ⟨hfalse, r, hu, hty, hts, _, hlist⟩
    · rw [h]
      exact hInv
    · rw [hlist]
      apply DayUnique_insert _ _ hInv
      rw [hu, hty, hts]
      exact approvedCount_eq_zero_of_not_today _ _ _ _ hfalse

/-- C2 witness: the invariant-preservation conclusion evaluated on a
concrete day-unique store. -/
theorem C2_witness :
    DayUnique (checkIn idDecrypt stOneTemplate subGood 0).2.attendance_records ∧
    DayUnique (checkOut idDecrypt stOneTemplate subGood 0).2.attendance_records := by
  have hInv : DayUnique stOneTemplate.attendance_records := by
    intro uid ty d
    simp [approvedCount, stOneTemplate]
  have h := C2_day_uniqueness idDecrypt stOneTemplate subGood 0 hInv
  exact ⟨h.2.2.2.1, h.2.2.2.2⟩

/-- C7 counterexample: the same offline submission, with embedded
timestamp 50 (calendar day 0), gets different duplicate-check outcomes
depending only on its arrival instant: arriving at instant 50 it is
rejected `AlreadyCheckedIn`, arriving a day later (instant
`msPerDay + 50`) the duplicate check passes (the pipeline proceeds to
`NoFaceDetected`).  The window is computed from the server clock, not
from the embedded timestamp. -/
theorem C7_counterexample :
    subOffline.timestamp = 50 ∧
    (checkIn idDecrypt stCheckedIn subOffline 50).1 =
      CheckOutcome.alreadyCheckedIn ∧
    (checkIn idDecrypt stCheckedIn subOffline (msPerDay + 50)).1 =
      CheckOutcome.noFaceDetected ∧
    CheckOutcome.alreadyCheckedIn ≠ CheckOutcome.noFaceDetected := by
  refine ⟨rfl, ?_, ?_, by intro h; exact CheckOutcome.noConfusion h⟩
  · have hdup : approvedToday stCheckedIn.attendance_records
        subOffline.user_id RecType.check_in 50 = true := rfl
    simp only [checkIn]
    rw [if_pos hdup]
  · have hdup : approvedToday stCheckedIn.attendance_records
        subOffline.user_id RecType.check_in (msPerDay + 50) = false := rfl
    have hfaces : (detectFaces subOffline.faces).length = 0 := rfl
    simp only [checkIn]
    rw [if_neg (by simp [hdup])]
    rw [if_pos hfaces]

/-- C7 amended: both routes ignore the embedded submission timestamp
entirely — replacing it changes nothing — and the check-in duplicate
rejection happens exactly when an approved check-in exists in the
calendar-day window of the server arrival instant `now`. -/
theorem C7_duplicate_check_uses_arrival_time {α : Type} (decrypt : α → Vec)
    (st : DBState α) (sub : Submission) (now t : ℕ) :
    checkIn decrypt st { sub with timestamp := t } now
      = checkIn decrypt st sub now ∧
    checkOut decrypt st { sub with timestamp := t } now
      = checkOut decrypt st sub now ∧
    ((checkIn decrypt st sub now).1 = CheckOutcome.alreadyCheckedIn ↔
      approvedToday st.attendance_records sub.user_id RecType.check_in now
        = true) := by
  refine ⟨rfl, rfl, ?_⟩
  by_cases h : approvedToday st.attendance_records sub.user_id
      RecType.check_in now = true
  · simp only [checkIn]
    rw [if_pos h]
    simp [h]
  · simp only [checkIn]
    rw [if_neg h]
    constructor
    · intro heq
      exfalso
      revert heq
      split_ifs <;> intro heq <;> exact heq
    · intro hq
      exact absurd hq h

/-- C9: every record inserted by the check-out route has status
`approved`, and the route reads neither the work-schedule table nor any
geofence data: replacing the schedules changes neither the outcome nor
the resulting attendance records. -/
theorem C9_checkout_always_approved {α : Type} (decrypt : α → Vec)
    (st : DBState α) (sub : Submission) (now : ℕ) :
    (∀ r : AttendanceRecord,
      (checkOut decrypt st sub now).1 = CheckOutcome.inserted r →
        r.status = RecStatus.approved) ∧
    (∀ ws : List WorkSchedule,
      (checkOut decrypt { st with work_schedules := ws } sub now).1 =
        (checkOut decrypt st sub now).1 ∧
      (checkOut decrypt { st with work_schedules := ws } sub
        now).2.attendance_records =
        (checkOut decrypt st sub now).2.attendance_records) := by
  constructor
  · intro r hr
    revert hr
    simp only [checkOut]
    split_ifs <;> intro hr
    · exact hr.elim
    · exact hr.elim
    · exact hr.elim
    · exact hr.elim
    · exact hr.elim
    · injection hr with hrec
      rw [← hrec]
  · intro ws
    cases st with
    | mk a f w =>
      constructor
      · simp only [checkOut]
        split_ifs <;> rfl
      · simp only [checkOut]
        split_ifs <;> rfl

theorem loadTemplates_stWithSite :
    loadTemplates stWithSite.face_templates subGood.user_id
      = [tmplPrimPos] := rfl

theorem bestOf_stWithSite :
    bestOf idDecrypt subGood.features
      (loadTemplates stWithSite.face_templates subGood.user_id)
      = (1, some (compareFaces [1] [1] defaultThreshold)) := by
  rw [loadTemplates_stWithSite]
  show bestOf idDecrypt [1] [tmplPrimPos] = _
  exact bestOf_tmplPrimPos

theorem loadTemplates_stCheckedIn :
    loadTemplates stCheckedIn.face_templates subGood.user_id
      = [tmplPrimPos] := rfl

theorem bestOf_stCheckedIn :
    bestOf idDecrypt subGood.features
      (loadTemplates stCheckedIn.face_templates subGood.user_id)
      = (1, some (compareFaces [1] [1] defaultThreshold)) := by
  rw [loadTemplates_stCheckedIn]
  show bestOf idDecrypt [1] [tmplPrimPos] = _
  exact bestOf_tmplPrimPos

theorem geofence_some_truthy (subLat subLon : ℝ) (w : WorkSchedule)
    (la lo : ℝ) (hla : w.latitude = some la) (hlo : w.longitude = some lo)
    (hla0 : la ≠ 0) (hlo0 : lo ≠ 0) :
    geofence subLat subLon (some w) =
      (if calculateDistance subLat subLon la lo > w.location_radius
        then RecStatus.flagged else RecStatus.approved,
       if calculateDistance subLat subLon la lo > w.location_radius
        then some (round (calculateDistance subLat subLon la lo),
          w.location_radius)
        else none) := by
  unfold geofence
  dsimp only
  rw [hla, hlo]
  dsimp only
  rw [if_pos ⟨hla0, hlo0⟩]
  by_cases hd : calculateDistance subLat subLon la lo > w.location_radius
  · rw [if_pos hd, if_pos hd, if_pos hd]
  · rw [if_neg hd, if_neg hd, if_neg hd]

/-- C4: when every biometric check passes and an effective schedule with
a truthy site `(la, lo)` is configured, the check-in record is still
created (never rejected outright); its status is `flagged` exactly when
the haversine distance strictly exceeds the allowed radius (a distance
equal to the radius yields `approved`), and when flagged the rejection
reason carries `Math.round(distance)` and the allowed radius. -/
theorem C4_geofence_flagging {α : Type} (decrypt : α → Vec) (st : DBState α)
    (sub : Submission) (now : ℕ) (w : WorkSchedule) (la lo : ℝ)
    (hdup : approvedToday st.attendance_records sub.user_id RecType.check_in
      now = false)
    (hfaces : (detectFaces sub.faces).length ≠ 0)
    (hlive : (performAntiSpoofingChecks sub.spoof).passed = true)
    (htempl : (loadTemplates st.face_templates sub.user_id).length ≠ 0)
    (hmatch : (bestOf decrypt sub.features
      (loadTemplates st.face_templates sub.user_id)).2.isNone = false)
    (hsim : ¬ (bestOf decrypt sub.features
      (loadTemplates st.face_templates sub.user_id)).1 < confidenceThreshold)
    (hws : findWorkSchedule st.work_schedules sub.user_id now = some w)
    (hla : w.latitude = some la) (hlo : w.longitude = some lo)
    (hla0 : la ≠ 0) (hlo0 : lo ≠ 0) :
    checkIn decrypt st sub now =
      (CheckOutcome.inserted (c4record decrypt st sub now w la lo),
        { st with attendance_records :=
            st.attendance_records ++ [c4record decrypt st sub now w la lo] }) ∧
    ((c4record decrypt st sub now w la lo).status = RecStatus.flagged ↔
      calculateDistance sub.latitude sub.longitude la lo
        > w.location_radius) ∧
    ((c4record decrypt st sub now w la lo).status = RecStatus.approved ↔
      calculateDistance sub.latitude sub.longitude la lo
        ≤ w.location_radius) ∧
    (c4record decrypt st sub now w la lo).rejection_reason =
      (if calculateDistance sub.latitude sub.longitude la lo
          > w.location_radius
        then some (round (calculateDistance sub.latitude sub.longitude la lo),
          w.location_radius)
        else none) := by
  refine ⟨?_, ?_, ?_, rfl⟩
  · simp only [checkIn]
    rw [if_neg (by simp [hdup])]
    rw [if_neg hfaces]
    rw [if_neg (by simp [hlive])]
    rw [if_neg htempl]
    rw [if_neg (not_or.mpr ⟨by simp [hmatch], hsim⟩)]
    rw [hws, geofence_some_truthy sub.latitude sub.longitude w la lo hla hlo
      hla0 hlo0]
    simp only [c4record, hlive]
  · simp only [c4record]
    by_cases hd : calculateDistance sub.latitude sub.longitude la lo
        > w.location_radius
    · rw [if_pos hd]
      simp [hd]
    · rw [if_neg hd]
      simp [hd]
  · simp only [c4record]
    by_cases hd : calculateDistance sub.latitude sub.longitude la lo
        > w.location_radius
    · rw [if_pos hd]
      simp [not_le.mpr hd]
    · rw [if_neg hd]
      simp [not_lt.mp hd]

/-- C4 witness: a concrete run with a configured site placed at the
submitted coordinates themselves (distance 0, radius 100): the record is created with
status `approved` and no rejection reason, matching the inclusive
boundary. -/
theorem C4_witness :
    (checkIn idDecrypt stWithSite subGood 0).1 = CheckOutcome.inserted
      { user_id := 1, rtype := RecType.check_in, timestamp := 0
        latitude := 1, longitude := 1, accuracy := none
        confidence_score := 1, liveness_passed := true
        status := RecStatus.approved, rejection_reason := none
        is_offline := false } ∧
    ¬ calculateDistance subGood.latitude subGood.longitude 1 1
        > wsFix.location_radius := by
  have hdist : calculateDistance subGood.latitude subGood.longitude 1 1
      = 0 := by
    show calculateDistance 1 1 1 1 = 0
    exact calculateDistance_self 1 1
  have hnot : ¬ calculateDistance subGood.latitude subGood.longitude 1 1
      > wsFix.location_radius := by
    rw [hdist]
    norm_num [wsFix]
  have h := C4_geofence_flagging idDecrypt stWithSite subGood 0 wsFix 1 1
    rfl
    (by rw [detectFaces_subGood]; norm_num)
    subGood_spoof_passed
    (by rw [loadTemplates_stWithSite]; norm_num)
    (by rw [bestOf_stWithSite]; rfl)
    (by rw [bestOf_stWithSite]; norm_num [confidenceThreshold])
    rfl rfl rfl (by norm_num) (by norm_num)
  refine ⟨?_, hnot⟩
  have h1 : (checkIn idDecrypt stWithSite subGood 0).1 =
      CheckOutcome.inserted (c4record idDecrypt stWithSite subGood 0 wsFix 1 1) := by
    rw [h.1]
  rw [h1]
  congr 1
  simp only [c4record, bestOf_stWithSite]
  rw [if_neg hnot, if_neg hnot]
  rfl

theorem checkOut_eval_stCheckedIn :
    (checkOut idDecrypt stCheckedIn subGood 10).1 =
      CheckOutcome.inserted recCheckout := by
  have h1 : approvedToday stCheckedIn.attendance_records subGood.user_id
      RecType.check_in 10 = true := rfl
  have h2 : approvedToday stCheckedIn.attendance_records subGood.user_id
      RecType.check_out 10 = false := rfl
  simp only [checkOut]
  rw [if_neg (by simp [h1])]
  rw [if_neg (by simp [h2])]
  rw [if_neg (by rw [detectFaces_subGood]; norm_num)]
  rw [if_neg (by rw [subGood_spoof_passed]; norm_num)]
  rw [if_neg (not_or.mpr ⟨by rw [bestOf_stCheckedIn]; simp,
    by rw [bestOf_stCheckedIn]; norm_num [confidenceThreshold]⟩)]
  rw [bestOf_stCheckedIn, subGood_spoof_passed]
  rfl

/-- C9 witness: a concrete successful check-out run; the inserted record
has status `approved`, obtained from the C9 theorem at that input. -/
theorem C9_witness :
    (checkOut idDecrypt stCheckedIn subGood 10).1 =
      CheckOutcome.inserted recCheckout ∧
    recCheckout.status = RecStatus.approved := by
  refine ⟨checkOut_eval_stCheckedIn, ?_⟩
  exact (C9_checkout_always_approved idDecrypt stCheckedIn subGood 10).1
    recCheckout checkOut_eval_stCheckedIn

end AttendanceApp
